import Mathlib

/-!
Verification development for the hospital-consultation agent repository.

The Lean definitions below are a shallow embedding of the Python sources:

* `src/src/models/consultation_models.py` — `ProcedureCategory`, `PROCEDURE_CATEGORIES`
* `src/src/services/consultation_service.py` — retry loop, category propagation,
  pdf-handle lookup, prompt assembly
* `src/source/agent_veteran_skin_consultant.py` — `load_and_filter_hospitals`,
  prompt assembly, conversation history
* `src/src/formatters/simple_json_formatter.py` — `format_consultation_json_to_chat`
* `src/src/formatters/advanced_response_formatter.py` — `format_consultation_response`
* `src/src/services/advanced_consultation_service.py` — `process_full_consultation`
  steps 6-8 (code-fence stripping, JSON parse fallback, formatting),
  `check_pdf_server_status`

Python strings are modeled as Lean `String` (lists of characters); `str.replace`
is modeled character-faithfully by `pyRepAux`; Python dictionaries appearing as
parsed JSON are modeled by the `Json` inductive; Python code that may raise is
modeled in the `Except String` monad, with raised exceptions as `Except.error`.
The remote model API and `json.loads` are external collaborators; they are
modeled as explicit outcome parameters (`Nat → ApiOutcome`,
`String → Except String Json`).
-/

namespace HospitalAgent

/-! ## Character-list string utilities (model of Python `str` operations) -/

/-- Boolean prefix test on character lists. -/
def okPre : List Char → List Char → Bool
  | [], _ => true
  | _ :: _, [] => false
  | a :: as, b :: bs => a == b && okPre as bs

/-- Boolean substring (contiguous) test: does `hay` contain `needle`? -/
def infixHit : List Char → List Char → Bool
  | needle, [] => needle.isEmpty
  | needle, c :: rest => okPre needle (c :: rest) || infixHit needle rest

/-- Containment: `strContainsS hay needle` is Python `needle in hay` on strings. -/
def strContainsS (hay needle : String) : Bool :=
  infixHit needle.data hay.data

/-- Python `s[:n]` for strings (slice of the first `n` code points). -/
def strTake (s : String) (n : Nat) : String :=
  String.mk (s.data.take n)

/-- Python `s[k:]` for strings. -/
def strDrop (s : String) (n : Nat) : String :=
  String.mk (s.data.drop n)

/-- Python `s[:-n]` for strings. -/
def strDropRight (s : String) (n : Nat) : String :=
  String.mk (s.data.take (s.data.length - n))

/-- Whitespace characters stripped by Python `str.strip()` (the ASCII ones
occurring in the data handled here). -/
def isWs (c : Char) : Bool :=
  c == ' ' || c == '\n' || c == '\t' || c == '\r'

/-- Python `str.strip()`. -/
def pyStrip (s : String) : String :=
  String.mk (((s.data.dropWhile isWs).reverse.dropWhile isWs).reverse)

/-- Python `str.startswith`. -/
def startsWithS (s pre : String) : Bool :=
  okPre pre.data s.data

/-- Python `str.endswith`. -/
def endsWithS (s post : String) : Bool :=
  okPre post.data.reverse s.data.reverse

/-- Joining: `joinSep sep xs` is Python `sep.join(xs)`. -/
def joinSep (sep : String) : List String → String
  | [] => ""
  | [x] => x
  | x :: y :: xs => x ++ sep ++ joinSep sep (y :: xs)

/-- Fuel-driven model of Python `str.replace(old, new)` on character lists.
Scans left to right; at each position, if `old` is a (non-empty) prefix of the
remaining input it emits `new` and skips past the occurrence, otherwise it
copies one character.  `fuel ≥ length s` makes the fuel bound irrelevant
(one or more characters of `s` are consumed per step). -/
def pyRepAux : Nat → List Char → List Char → List Char → List Char
  | _, [], _, _ => []
  | 0, s, _, _ => s
  | Nat.succ f, c :: rest, old, new =>
    if !old.isEmpty && okPre old (c :: rest) then
      new ++ pyRepAux f (List.drop (old.length - 1) rest) old new
    else
      c :: pyRepAux f rest old new

/-- Python `s.replace(old, new)` on strings (for non-empty `old`, as in all
call sites of the repository). -/
def pyReplace (s old new : String) : String :=
  String.mk (pyRepAux s.data.length s.data old.data new.data)

/-- Python `enumerate(xs, start)`. -/
def enumFrom {α : Type} (start : Nat) : List α → List (Nat × α)
  | [] => []
  | x :: xs => (start, x) :: enumFrom (start + 1) xs

/-! ## Category classifier data model
(`src/src/models/consultation_models.py`, `src/src/config/settings.py`) -/

/-- Constant `PROCEDURE_CATEGORIES = ["필러", "보톡스", "모발이식", "제모", '피부', '리프팅']` -/
def PROCEDURE_CATEGORIES : List String :=
  ["필러", "보톡스", "모발이식", "제모", "피부", "리프팅"]

/-- Pydantic model `ProcedureCategory(is_detected: bool, category: str)`.
The `category` field is a bare `str`: the membership requirement appears only
in the field description sent to the model, not as a validator. -/
structure ProcedureCategory where
  is_detected : Bool
  category : String

/-- Model of `category = category_result.category if category_result.is_detected else None`
(`consultation_service.py` line 216; identically at
`agent_veteran_skin_consultant.py` line 194). -/
def categoryOf (r : ProcedureCategory) : Option String :=
  if r.is_detected then some r.category else none

/-! ## Model invocation with retry
(`src/src/services/consultation_service.py` lines 231-255) -/

/-- Errors raised by the generation endpoint; the `transient` flag records
whether the failure is transient (rate limit, timeout) or not (invalid
request).  The Python code is a bare `except Exception`, so the flag is
threaded through the model only to let claims about it be stated. -/
structure ApiError where
  transient : Bool
  msg : String
deriving DecidableEq

/-- Outcome of one `generate_content` call. -/
inductive ApiOutcome where
  | ok (text : String)
  | raised (e : ApiError)
deriving DecidableEq

/-- The retry loop body:
`for attempt in range(max_retries): try: ...; break
 except: if attempt < max_retries - 1: sleep(retry_delay); retry_delay *= 2
         else: raise`.
`call n` is the outcome of the attempt with 0-based index `n`; the result
carries the surfaced value, the list of backoff waits performed (in seconds),
and the number of attempts made. -/
def retryLoop (call : Nat → ApiOutcome) :
    Nat → Nat → Nat → Except ApiError String × List Nat × Nat
  | _, _, 0 => (Except.error ⟨false, "unreachable"⟩, [], 0)
  | attempt, delay, Nat.succ r =>
    match call attempt with
    | ApiOutcome.ok t => (Except.ok t, [], 1)
    | ApiOutcome.raised e =>
      if r = 0 then
        (Except.error e, [], 1)
      else
        let rest := retryLoop call (attempt + 1) (delay * 2) r
        (rest.1, delay :: rest.2.1, rest.2.2 + 1)

/-- Instantiation `max_retries = 3`, `retry_delay = 2`: the whole retry loop of
`process_consultation`. -/
def invokeWithRetry (call : Nat → ApiOutcome) :
    Except ApiError String × List Nat × Nat :=
  retryLoop call 0 2 3

/-! ## Auxiliary hospital data filter
(`src/source/agent_veteran_skin_consultant.py` lines 106-117) -/

/-- One row of the hospital CSV.  `category` is the `카테고리` column
(`none` models a pandas NaN, excluded by `na=False`); `rendered` is the row's
text in `DataFrame.to_string(index=False)`. -/
structure HospitalRow where
  category : Option String
  rendered : String
deriving DecidableEq

/-- Python truthiness of the `category: str | None` argument
(`if not category: ...` is taken for `None` and for the empty string). -/
def pyTruthyStrOpt : Option String → Bool
  | none => false
  | some s => !(s == "")

/-- Model of `df['카테고리'].str.contains(category, na=False)` for one row.  The
classifier vocabulary (필러, 보톡스, 모발이식, 제모, 피부, 리프팅) contains no
regex metacharacters, so pandas' default regex matching coincides with plain
substring containment, which is how it is modeled here; `na=False` maps a
missing category cell to `false`. -/
def rowMatches (category : String) (r : HospitalRow) : Bool :=
  match r.category with
  | none => false
  | some s => strContainsS s category

/-- Message of `return "관련 시술 카테고리를 찾지 못해 병원 정보를 필터링할 수 없습니다."` -/
def cannotFilterMsg : String :=
  "관련 시술 카테고리를 찾지 못해 병원 정보를 필터링할 수 없습니다."

/-- Message of `return "병원 목록 파일을 찾을 수 없어 병원 정보를 제공할 수 없습니다."` -/
def fileMissingMsg : String :=
  "병원 목록 파일을 찾을 수 없어 병원 정보를 제공할 수 없습니다."

/-- Message of `return f"'{category}' 카테고리에 해당하는 병원 정보를 찾을 수 없습니다."` -/
def noMatchMsg (category : String) : String :=
  "\x27" ++ category ++ "\x27 카테고리에 해당하는 병원 정보를 찾을 수 없습니다."

/-- Model of `filtered_df.head(5).to_string(index=False)`: a header line followed by the
first rows' renderings. -/
def renderTable (rows : List HospitalRow) : String :=
  joinSep "\n" ("카테고리" :: rows.map (fun r => r.rendered))

/-- Model of `load_and_filter_hospitals(csv_path, category)`.  `csv` is the parsed
dataset, `none` modeling a `FileNotFoundError` from `pd.read_csv` (the only
exception the Python `except` clause catches). -/
def load_and_filter_hospitals (csv : Option (List HospitalRow))
    (category : Option String) : String :=
  if pyTruthyStrOpt category = false then cannotFilterMsg
  else
    let cat := category.getD ""
    match csv with
    | none => fileMissingMsg
    | some df =>
      let filtered := df.filter (fun r => rowMatches cat r)
      if filtered.isEmpty then noMatchMsg cat
      else renderTable (filtered.take 5)

/-! ## PDF selection and handle lookup
(`src/src/services/consultation_service.py` lines 200-207 and 227-229;
`src/source/agent_veteran_skin_consultant.py` lines 183-204) -/

/-- Pydantic model `PdfSelection(selected_filename: str)`. -/
structure PdfSelection where
  selected_filename : String

/-- Python `dict.get(key)`: `none` when the key is absent (never raises). -/
def dictGet {α : Type} : List (String × α) → String → Option α
  | [], _ => none
  | (k2, v) :: rest, k => if k2 == k then some v else dictGet rest k

/-- One element of the `contents`/`parts` list sent to the generation call. -/
inductive ContentPart where
  | text (s : String)
  | fileRef (handle : String)
deriving DecidableEq

/-- Model of `current_parts = [user_query]; if selected_pdf_handle:
current_parts.append(selected_pdf_handle)`. -/
def buildRequestParts (user_query : String) (handle : Option String) :
    List ContentPart :=
  match handle with
  | some h => [ContentPart.text user_query, ContentPart.fileRef h]
  | none => [ContentPart.text user_query]

/-! ## Prompt assembly and conversation history
(`src/src/services/consultation_service.py` lines 222-224,
`src/src/services/advanced_consultation_service.py` lines 187-189,
`src/source/agent_veteran_skin_consultant.py` lines 204-209) -/

def tokenHospital : String := "((HOSPITAL_LIST))"

def tokenPhotos : String := "((SUBMITTED_PHOTOS))"

def tokenHistory : String := "((CONVERSATION_HISTORY))"

/-- Sentinel `"사용자가 제출한 이미지가 없습니다."`, the fixed text substituted for the
photos placeholder. -/
def noPhotosSentinel : String := "사용자가 제출한 이미지가 없습니다."

/-- One conversation turn (`{'role': ..., 'parts': [...]}`). -/
structure ChatTurn where
  role : String
  content : String

/-- Python `str` of one history entry dict (text-only turn). -/
def turnRepr (t : ChatTurn) : String :=
  "\x7b\x27role\x27: \x27" ++ t.role ++ "\x27, \x27parts\x27: [\x27" ++
    t.content ++ "\x27]\x7d"

/-- Python `str(conversation_history)`: the list's entries rendered in order. -/
def serializeHistory (h : List ChatTurn) : String :=
  "[" ++ joinSep ", " (h.map turnRepr) ++ "]"

/-- Model of `system_prompt.replace("((HOSPITAL_LIST))", hospital_info)
  .replace("((SUBMITTED_PHOTOS))", "사용자가 제출한 이미지가 없습니다.")
  .replace("((CONVERSATION_HISTORY))", str(conversation_history))`. -/
def assembleFinalPrompt (template hospital_info histSer : String) : String :=
  pyReplace
    (pyReplace (pyReplace template tokenHospital hospital_info)
      tokenPhotos noPhotosSentinel)
    tokenHistory histSer

/-- No character of `v` occurs in `t` (decidable, used as the
non-reintroduction hypothesis for placeholder substitution). -/
def charsDisjoint (v t : String) : Prop :=
  ∀ c ∈ v.data, ¬ c ∈ t.data

instance (v t : String) : Decidable (charsDisjoint v t) := by
  unfold charsDisjoint; infer_instance

/-! ## Parsed-JSON values and the Python dynamics needed by the formatters -/

/-- A parsed JSON value (result of `json.loads`): Python `None`, `bool`,
`int`/`float` (as a rational), `str`, `list`, `dict`. -/
inductive Json where
  | null
  | bool (b : Bool)
  | num (q : ℚ)
  | str (s : String)
  | arr (xs : List Json)
  | obj (fields : List (String × Json))

/-- Association-list lookup for a parsed dict (keys are unique in parsed
JSON, so first match is the value). -/
def jGet : List (String × Json) → String → Option Json
  | [], _ => none
  | (k2, v) :: rest, k => if k2 == k then some v else jGet rest k

/-- Python `x.get(key, default)`; raises `AttributeError` when `x` is not a
dict. -/
def pyGetD (j : Json) (k : String) (dflt : Json) : Except String Json :=
  match j with
  | Json.obj fs => Except.ok ((jGet fs k).getD dflt)
  | _ => Except.error "AttributeError: object has no attribute get"

/-- Python `x[key]` for a string key; only dicts support it (the formatters
always guard it with a `key in x` test). -/
def pyIndex (j : Json) (k : String) : Except String Json :=
  match j with
  | Json.obj fs =>
    match jGet fs k with
    | some v => Except.ok v
    | none => Except.error "KeyError"
  | Json.str _ => Except.error "TypeError: string indices must be integers"
  | Json.arr _ => Except.error "TypeError: list indices must be integers"
  | _ => Except.error "TypeError: object is not subscriptable"

/-- Equality of a JSON value with a Python string (used by `in` on lists). -/
def jsonEqStr : Json → String → Bool
  | Json.str s, k => s == k
  | _, _ => false

/-- Python `key in x`: key test for dicts, membership for lists, substring
test for strings; raises `TypeError` on non-containers. -/
def pyIn (k : String) : Json → Except String Bool
  | Json.obj fs => Except.ok (fs.any (fun p => p.1 == k))
  | Json.arr xs => Except.ok (xs.any (fun x => jsonEqStr x k))
  | Json.str s => Except.ok (strContainsS s k)
  | _ => Except.error "TypeError: argument is not iterable"

/-- Python `for x in j`: lists yield their elements, strings their
characters, dicts their keys; other values raise `TypeError`. -/
def pyIterate : Json → Except String (List Json)
  | Json.arr xs => Except.ok xs
  | Json.str s => Except.ok (s.data.map (fun c => Json.str (String.mk [c])))
  | Json.obj fs => Except.ok (fs.map (fun p => Json.str p.1))
  | _ => Except.error "TypeError: object is not iterable"

/-- Python truthiness of a JSON value. -/
def pyTruthy : Json → Bool
  | Json.null => false
  | Json.bool b => b
  | Json.num q => !(q == 0)
  | Json.str s => !(s == "")
  | Json.arr xs => !xs.isEmpty
  | Json.obj fs => !fs.isEmpty

/-- Python `x[:n]` on a JSON value: slices strings and lists, raises
`TypeError` otherwise. -/
def pyTake : Json → Nat → Except String Json
  | Json.str s, n => Except.ok (Json.str (strTake s n))
  | Json.arr xs, n => Except.ok (Json.arr (xs.take n))
  | _, _ => Except.error "TypeError: object is not subscriptable"

/-- Decimal rendering of a JSON number.  Integers render as in Python;
non-integral rationals use a fraction notation (the repository's data never
interpolates non-integral numbers, so only the integer case matters). -/
def numRepr (q : ℚ) : String :=
  if q.den = 1 then toString q.num
  else toString q.num ++ "/" ++ toString q.den

/-- Python `repr`-style rendering of a JSON value. -/
def jsonRepr : Json → String
  | Json.null => "None"
  | Json.bool true => "True"
  | Json.bool false => "False"
  | Json.num q => numRepr q
  | Json.str s => "\x27" ++ s ++ "\x27"
  | Json.arr xs =>
    "[" ++ joinSep ", " (xs.attach.map (fun x => jsonRepr x.1)) ++ "]"
  | Json.obj fs =>
    "\x7b" ++
      joinSep ", "
        (fs.attach.map
          (fun p => "\x27" ++ p.1.1 ++ "\x27: " ++ jsonRepr p.1.2)) ++
      "\x7d"
decreasing_by
  · have h := List.sizeOf_lt_of_mem x.2
    simp only [Json.arr.sizeOf_spec]
    omega
  · obtain ⟨⟨a, b⟩, hm⟩ := p
    have h := List.sizeOf_lt_of_mem hm
    simp only [Prod.mk.sizeOf_spec] at h
    simp only [Json.obj.sizeOf_spec]
    omega

/-- Python `str(x)` as used by f-string interpolation: strings pass through,
scalars print directly, containers print `repr`-style.  (No claim depends on
the container rendering.) -/
def pyToStr : Json → String
  | Json.str s => s
  | Json.null => "None"
  | Json.bool true => "True"
  | Json.bool false => "False"
  | Json.num q => numRepr q
  | j => jsonRepr j

/-- Python `category or '전체'` on the `Optional[str]` category argument. -/
def pyOrDefault (cat : Option String) (dflt : String) : String :=
  match cat with
  | some s => if s == "" then dflt else s
  | none => dflt

/-! ## Confidence tiers
(`simple_json_formatter.py` lines 70-79; `advanced_response_formatter.py`
lines 119-125; `advanced_consultation_service.py` line 365) -/

/-- Branch `if confidence >= 9: 🟢/매우 확신 elif confidence >= 7: 🟡/권장
else: 🟠/고려 가능` — the tier branch of the simple JSON chat formatter. -/
def simpleConfTier (q : ℚ) : String × String :=
  if q ≥ 9 then ("🟢", "매우 확신")
  else if q ≥ 7 then ("🟡", "권장")
  else ("🟠", "고려 가능")

/-- The same branch evaluated on the raw JSON field value (Python comparison
of a non-number with an int raises `TypeError`; `bool` compares as 0/1). -/
def simpleConfTierOf : Json → Except String (String × String)
  | Json.num q => Except.ok (simpleConfTier q)
  | Json.bool b => Except.ok (simpleConfTier (if b then 1 else 0))
  | _ => Except.error "TypeError: not supported between instances"

/-- Branch `if confidence >= 8: 🟢 elif confidence >= 6: 🟡 else: 🟠` — the tier
branch of the advanced response formatter. -/
def advConfEmoji (q : ℚ) : String :=
  if q ≥ 8 then "🟢"
  else if q ≥ 6 then "🟡"
  else "🟠"

/-- The advanced tier branch on the raw JSON field value. -/
def advConfEmojiOf : Json → Except String String
  | Json.num q => Except.ok (advConfEmoji q)
  | Json.bool b => Except.ok (advConfEmoji (if b then 1 else 0))
  | _ => Except.error "TypeError: not supported between instances"

/-! ## Simple JSON chat formatter
(`src/src/formatters/simple_json_formatter.py`) -/

/-- The formatter's fixed opening text. -/
def simpleChatHeader : String :=
  "👩‍⚕️ **AI 피부과 상담 실장** (풀 모드)\n\n안녕하세요! 전문 서적을 참조하여 상세히 분석해드렸습니다. ✨\n\n"

/-- The fallback returned when the string input fails JSON parsing
(lines 18-25); it embeds the raw text verbatim. -/
def simpleParseFallback (raw pdf : String) (cat : Option String) : String :=
  "👩‍⚕️ **AI 피부과 상담 실장** (풀 모드)\n\n" ++ raw ++
    "\n\n---\n📚 **참조 PDF**: " ++ strTake pdf 50 ++
    "...\n🏷️ **카테고리**: " ++ pyOrDefault cat "전체"

/-- The formatter's closing text (lines 116-125). -/
def simpleChatFooter (pdf : String) (cat : Option String) : String :=
  "**💬 마무리 말씀**\n\n고객님의 고민이 잘 해결되길 바랍니다! 추가 질문이 있으시면 언제든 문의해 주세요. 😊\n\n---\n📚 **참조 PDF**: " ++
    strTake pdf 50 ++ (if pdf.length > 50 then "..." else "") ++
    "\n🏷️ **추론 카테고리**: " ++ pyOrDefault cat "전체" ++
    "\n⚡ **처리 모드**: PDF 참조 풀 모드\n\n*본 상담은 AI 분석 결과이며, 최종 진단 및 치료는 반드시 전문의와 상의하시기 바랍니다.*"

/-- One `detailed_analysis` entry rendered by the simple formatter
(lines 64-105), including the 시술 계획 and 인용문 sub-blocks. -/
def simpleAnalysisBlock (analysis : Json) : Except String String := do
  let option_name ← pyGetD analysis "option" (Json.str "시술")
  let confidence ← pyGetD analysis "confidence_score" (Json.num 0)
  let explanation ← pyGetD analysis "detailed_explanation" (Json.str "")
  let medical_principle ← pyGetD analysis "medical_principle" (Json.str "")
  let tier ← simpleConfTierOf confidence
  let mut block :=
    "**" ++ tier.1 ++ " " ++ pyToStr option_name ++ "** (" ++ tier.2 ++
      " - 신뢰도: " ++ pyToStr confidence ++ "/10)\n\n**의학적 원리**: " ++
      pyToStr medical_principle ++ "\n\n**상세 설명**: " ++
      pyToStr explanation ++ "\n\n"
  let hasPlan ← pyIn "procedure_plan" analysis
  if hasPlan then
    let plan ← pyIndex analysis "procedure_plan"
    let rs ← pyGetD plan "recommended_sessions" (Json.str "상담 후 결정")
    let dt ← pyGetD plan "expected_downtime" (Json.str "개인차 있음")
    let pre2 ← pyGetD plan "pre_procedure_care" (Json.str "상담 시 안내")
    let post2 ← pyGetD plan "post_procedure_care" (Json.str "상담 시 안내")
    let cost ← pyGetD plan "expected_cost_range" (Json.str "상담 시 안내")
    block := block ++
      "**📅 시술 계획**\n• **권장 횟수**: " ++ pyToStr rs ++
      "\n• **회복 기간**: " ++ pyToStr dt ++
      "\n• **시술 전 준비**: " ++ pyToStr pre2 ++
      "\n• **시술 후 관리**: " ++ pyToStr post2 ++
      "\n• **예상 비용**: " ++ pyToStr cost ++ "\n\n"
  let hasCit ← pyIn "citation" analysis
  if hasCit then
    let cit ← pyIndex analysis "citation"
    if pyTruthy cit then
      let citSlice ← pyTake cit 100
      block := block ++ "**📚 전문 서적 참조**: " ++ pyToStr citSlice ++
        "...\n\n"
  return block

/-- The body of `format_consultation_json_to_chat` once `data` is available
(lines 29-127); raises (as `Except.error`) exactly where the Python would. -/
def simpleChatBody (data : Json) (pdf : String) (cat : Option String) :
    Except String String := do
  let mut response := simpleChatHeader
  let hasConcern ← pyIn "clarified_user_concern" data
  if hasConcern then
    let v ← pyIndex data "clarified_user_concern"
    response := response ++ "**🎯 고객님 질문 이해**\n" ++ pyToStr v ++ "\n\n"
  let hasSummary ← pyIn "overall_summary" data
  if hasSummary then
    let v ← pyIndex data "overall_summary"
    response := response ++ "**📋 종합 분석 결과**\n" ++ pyToStr v ++ "\n\n"
  let hasSkin ← pyIn "skin_issues" data
  if hasSkin then
    let issuesJ ← pyIndex data "skin_issues"
    let issues ← pyIterate issuesJ
    for p in enumFrom 1 issues do
      let issue := p.2
      let prob ← pyGetD issue "identified_problem" (Json.str "분석 중...")
      response := response ++ "**🔍 분석 결과 #" ++ toString p.1 ++
        "**\n**문제**: " ++ pyToStr prob ++ "\n\n**💡 추천 시술 옵션들**:\n"
      let optsJ ← pyGetD issue "recommended_options" (Json.arr [])
      let opts ← pyIterate optsJ
      for o in opts do
        response := response ++ "• " ++ pyToStr o ++ "\n"
      response := response ++ "\n"
      let dasJ ← pyGetD issue "detailed_analysis" (Json.arr [])
      let das ← pyIterate dasJ
      for a in das do
        let block ← simpleAnalysisBlock a
        response := response ++ block
  let hasGuide ← pyIn "clinic_selection_guide" data
  if hasGuide then
    let g ← pyIndex data "clinic_selection_guide"
    response := response ++ "**🏥 좋은 병원 선택 가이드**\n\n" ++ pyToStr g ++
      "\n\n"
  return response ++ simpleChatFooter pdf cat

/-- Model of `format_consultation_json_to_chat(json_data, pdf_filename, category)`.
String inputs are parsed with `loads` (= `json.loads`); a parse failure is
swallowed by the bare `except` and answered with the verbatim-raw fallback.
Dict (or other already-parsed) inputs go straight to the body. -/
def format_consultation_json_to_chat (loads : String → Except String Json)
    (json_data : Sum String Json) (pdf : String) (cat : Option String) :
    Except String String :=
  match json_data with
  | Sum.inl s =>
    match loads s with
    | Except.error _ => Except.ok (simpleParseFallback s pdf cat)
    | Except.ok data => simpleChatBody data pdf cat
  | Sum.inr data => simpleChatBody data pdf cat

/-! ## Advanced response formatter
(`src/src/formatters/advanced_response_formatter.py`) -/

/-- Model of `_create_header_section` (content field; section titles are never used by
`_assemble_response`, so sections are modeled by their content strings). -/
def advHeaderSection (data : Json) : Except String String := do
  let stage ← pyGetD data "consultation_stage" (Json.str "상담")
  let concern ← pyGetD data "clarified_user_concern" (Json.str "피부 상담")
  return "안녕하세요! 👋 20년차 피부과 전문 상담 실장입니다.\n\n**📋 " ++
    pyToStr stage ++ " 내용**\n" ++ pyToStr concern ++
    "\n\n고객님의 피부 상태를 꼼꼼히 분석해보았습니다. 전문적이면서도 이해하기 쉽게 설명드릴게요! 💫"

/-- Model of `_create_analysis_section`. -/
def advAnalysisSection (data : Json) : Except String String := do
  let summary ← pyGetD data "overall_summary" (Json.str "종합적인 분석을 진행했습니다.")
  let analyzed_data ← pyGetD data "analyzed_data" (Json.obj [])
  let mut content := "**🔍 종합 분석 결과**\n\n" ++ pyToStr summary ++
    "\n\n**📸 제출하신 사진 분석:**\n"
  let submitted_photos ← pyGetD analyzed_data "submitted_photos" (Json.arr [])
  if pyTruthy submitted_photos then
    let photos ← pyIterate submitted_photos
    for photo_desc in photos do
      content := content ++ "• " ++ pyToStr photo_desc ++ "\n"
  else
    content := content ++ "• 제출된 사진이 없어 텍스트 상담을 기준으로 분석했습니다.\n"
  return content

/-- One `detailed_analysis` entry of `_create_treatment_sections`. -/
def advAnalysisBlock (analysis : Json) : Except String String := do
  let option ← pyGetD analysis "option" (Json.str "시술")
  let confidence ← pyGetD analysis "confidence_score" (Json.num 0)
  let explanation ← pyGetD analysis "detailed_explanation" (Json.str "")
  let medical_principle ← pyGetD analysis "medical_principle" (Json.str "")
  let citation ← pyGetD analysis "citation" (Json.str "")
  let procedure_plan ← pyGetD analysis "procedure_plan" (Json.obj [])
  let emoji ← advConfEmojiOf confidence
  let rs ← pyGetD procedure_plan "recommended_sessions" (Json.str "상담 후 결정")
  let dt ← pyGetD procedure_plan "expected_downtime" (Json.str "개인차 있음")
  let pre2 ← pyGetD procedure_plan "pre_procedure_care" (Json.str "별도 안내")
  let post2 ← pyGetD procedure_plan "post_procedure_care" (Json.str "별도 안내")
  let cost ← pyGetD procedure_plan "expected_cost_range" (Json.str "상담 시 안내")
  return "\n**" ++ emoji ++ " " ++ pyToStr option ++ "** (신뢰도: " ++
    pyToStr confidence ++ "/10)\n\n**의학적 원리:** " ++
    pyToStr medical_principle ++ "\n\n**상세 설명:** " ++
    pyToStr explanation ++ "\n\n**시술 계획:**\n• 권장 횟수: " ++
    pyToStr rs ++ "\n• 회복 기간: " ++ pyToStr dt ++
    "\n• 시술 전 준비: " ++ pyToStr pre2 ++ "\n• 시술 후 관리: " ++
    pyToStr post2 ++ "\n• 예상 비용: " ++ pyToStr cost ++
    "\n\n**참고 문헌:** " ++ pyToStr citation ++ "\n"

/-- Model of `_create_treatment_sections`: one content string per skin issue. -/
def advTreatmentSections (data : Json) : Except String (List String) := do
  let skin_issues ← pyGetD data "skin_issues" (Json.arr [])
  let issues ← pyIterate skin_issues
  let mut sections : List String := []
  for issue in issues do
    let problem ← pyGetD issue "identified_problem" (Json.str "피부 문제")
    let dasJ ← pyGetD issue "detailed_analysis" (Json.arr [])
    let das ← pyIterate dasJ
    let mut content := "**🎯 진단된 문제:** " ++ pyToStr problem ++
      "\n\n**💡 추천 시술 옵션들:**\n"
    for a in das do
      let block ← advAnalysisBlock a
      content := content ++ block
    sections := sections ++ [content]
  return sections

/-- Model of `_create_clinic_guide_section`. -/
def advClinicGuideSection (data : Json) : Except String String := do
  let guide ← pyGetD data "clinic_selection_guide"
    (Json.str "전문적인 병원을 선택하시길 권합니다.")
  return "**🏥 좋은 병원 선택 가이드**\n\n" ++ pyToStr guide ++
    "\n\n**✅ 체크포인트:**\n• 전문의 자격증 확인\n• 사용 장비의 최신성\n• 상담의 충실성\n• 사후 관리 체계\n• 합리적인 가격 정책"

/-- Model of `_create_closing_section` (fixed content, including the trailing spaces
present in the source). -/
def advClosingSection : String :=
  "**💌 마무리 말씀**\n\n고객님의 피부 고민이 잘 해결되길 바랍니다! \n추가 궁금한 점이 있으시면 언제든 문의해 주세요. \n\n아름다운 피부를 위한 여정을 함께 하겠습니다! ✨\n\n---\n*본 상담은 AI 기반 분석 결과이며, 최종 진단 및 치료는 반드시 전문의와 상의하시기 바랍니다.*"

/-- Model of `_assemble_response`: each section content followed by a blank entry,
joined with newlines, then stripped. -/
def advAssembleResponse (sections : List String) : String :=
  pyStrip (joinSep "\n" (sections.foldr (fun s acc => s :: "" :: acc) []))

/-- Everything inside the `try` of `format_consultation_response`: parse a
string input with `loads` (JSON errors propagate as exceptions here), build
the five section groups, assemble. -/
def advBody (loads : String → Except String Json)
    (input : Sum String Json) : Except String String := do
  let data ← match input with
    | Sum.inl s => match loads s with
      | Except.ok j => pure j
      | Except.error e => Except.error e
    | Sum.inr j => pure j
  let header ← advHeaderSection data
  let analysis ← advAnalysisSection data
  let treatments ← advTreatmentSections data
  let clinic ← advClinicGuideSection data
  return advAssembleResponse
    ([header, analysis] ++ treatments ++ [clinic, advClosingSection])

/-- Model of `format_consultation_response`: the whole body runs inside
`try ... except Exception as e: return f"❌ 응답 생성 중 오류가 발생했습니다: {str(e)}"`. -/
def format_consultation_response (loads : String → Except String Json)
    (input : Sum String Json) : String :=
  match advBody loads input with
  | Except.ok s => s
  | Except.error e => "❌ 응답 생성 중 오류가 발생했습니다: " ++ e

/-! ## `process_full_consultation`, steps 6-8
(`src/src/services/advanced_consultation_service.py` lines 208-272) -/

/-- Code-fence stripping (lines 209-214): strip, drop a leading
` ```json `, drop a trailing ` ``` `, strip again. -/
def cleanFences (raw : String) : String :=
  let c := pyStrip raw
  let c := if startsWithS c "```json" then strDrop c 7 else c
  let c := if endsWithS c "```" then strDropRight c 3 else c
  pyStrip c

/-- Message of `raise Exception("API 응답이 비어있습니다. 다시 시도해주세요.")`. -/
def emptyRespErr : String := "API 응답이 비어있습니다. 다시 시도해주세요."

/-- The last-resort wrapper used when formatting itself raised
(lines 263-272); it embeds the cleaned raw response verbatim. -/
def lastResortWrapper (raw pdf : String) (cat : Option String)
    (ferr : String) : String :=
  "👩‍⚕️ **AI 피부과 상담 실장** (풀 모드 - 원본 응답)\n\n" ++ raw ++
    "\n\n---\n📚 **참조 PDF**: " ++ pdf ++ "\n🏷️ **카테고리**: " ++
    pyOrDefault cat "전체" ++ "\n⚠️ **포맷 에러**: " ++ ferr

/-- Steps 6b-8 of `process_full_consultation` applied to the raw model
output: fence-clean, reject empty (the raise is caught further out, by the
fallback-to-simple-mode handler, hence `Except.error` here), parse with
fallback to a `raw_response` wrapper dict, format with
`format_consultation_json_to_chat`, and catch formatting errors with the
last-resort wrapper. -/
def pipelineFormatStage (loads : String → Except String Json)
    (raw pdf : String) (cat : Option String) : Except String String :=
  let cleaned := cleanFences raw
  if pyStrip cleaned == "" then Except.error emptyRespErr
  else
    let consultation_data :=
      match loads cleaned with
      | Except.ok j => j
      | Except.error _ => Json.obj [("raw_response", Json.str cleaned)]
    match format_consultation_json_to_chat loads
        (Sum.inr consultation_data) pdf cat with
    | Except.ok s => Except.ok s
    | Except.error ferr => Except.ok (lastResortWrapper cleaned pdf cat ferr)

/-! ## PDF-server status probe
(`src/src/services/advanced_consultation_service.py` lines 44-53) -/

/-- Outcome of `requests.get(f"{url}/", timeout=5)` together with the result
of a subsequent `.json()` call: the request may raise, or respond with a
status code and a body whose JSON decoding may itself raise. -/
inductive HttpAttempt where
  | raised (msg : String)
  | responded (code : Nat) (body : Except String Json)

/-- Dict `{"status": "error", "message": m}`. -/
def errStatusJson (m : String) : Json :=
  Json.obj [("status", Json.str "error"), ("message", Json.str m)]

/-- Model of `check_pdf_server_status`: 200 → `response.json()` (a decoding error is
raised inside the `try` and caught); non-200 → error dict; raised → error
dict. -/
def check_pdf_server_status : HttpAttempt → Json
  | HttpAttempt.raised m => errStatusJson m
  | HttpAttempt.responded code body =>
    if code == 200 then
      match body with
      | Except.ok payload => payload
      | Except.error m => errStatusJson m
    else errStatusJson ("HTTP " ++ toString code)

/-! ## Concrete instances used by the closed theorems below -/

/-- A `json.loads` that rejects its input (as on any non-JSON model output). -/
def loadsFail : String → Except String Json := fun _ => Except.error "Expecting value"

/-- A well-formed ConsultationResult-shaped parsed response (one skin issue,
one option at confidence 9). -/
def wfDemo : Json :=
  Json.obj
    [("consultation_stage", Json.str "초기 상담"),
     ("analyzed_data", Json.obj
       [("submitted_photos", Json.arr []),
        ("conversation_history", Json.str "질문 1건")]),
     ("clarified_user_concern", Json.str "팔자주름 개선 문의"),
     ("overall_summary", Json.str "필러 시술을 권장합니다."),
     ("skin_issues", Json.arr
       [Json.obj
         [("identified_problem", Json.str "팔자주름"),
          ("recommended_options", Json.arr [Json.str "필러"]),
          ("detailed_analysis", Json.arr
            [Json.obj
              [("option", Json.str "필러"),
               ("confidence_score", Json.num 9),
               ("medical_principle", Json.str "볼륨 복원"),
               ("citation", Json.str "Injectable Fillers"),
               ("detailed_explanation", Json.str "홈 패인 부위를 채웁니다."),
               ("procedure_plan", Json.obj
                 [("recommended_sessions", Json.str "1회"),
                  ("expected_downtime", Json.str "1-2일"),
                  ("pre_procedure_care", Json.str "음주 금지"),
                  ("post_procedure_care", Json.str "마사지 금지"),
                  ("expected_cost_range", Json.str "30-60만원")])]])]]),
     ("clinic_selection_guide", Json.str "전문의 경력을 확인하세요.")]

/-- Attempts 1 and 2 fail transiently, attempt 3 succeeds. -/
def callFailTwice : Nat → ApiOutcome := fun n =>
  if n < 2 then ApiOutcome.raised ⟨true, "RateLimited"⟩
  else ApiOutcome.ok "정상 응답"

/-- Every attempt fails transiently. -/
def callFailThrice : Nat → ApiOutcome := fun _ =>
  ApiOutcome.raised ⟨true, "Timeout"⟩

/-- Every attempt fails with a non-transient (invalid request) error. -/
def callInvalid : Nat → ApiOutcome := fun _ =>
  ApiOutcome.raised ⟨false, "InvalidArgument"⟩

/-- A dataset with 7 rows matching 필러 (two rows do not match; one category
cell is NaN). -/
def demoDf : List HospitalRow :=
  [⟨some "필러", "A의원 강남 4.8"⟩, ⟨some "필러/보톡스", "B의원 서초 4.6"⟩,
   ⟨some "리프팅", "C의원 강남 4.5"⟩, ⟨some "필러", "D의원 신사 4.4"⟩,
   ⟨some "필러", "E의원 압구정 4.3"⟩, ⟨some "필러", "F의원 논현 4.2"⟩,
   ⟨some "필러", "G의원 역삼 4.1"⟩, ⟨none, "H의원 삼성 4.0"⟩,
   ⟨some "필러", "I의원 청담 3.9"⟩]

/-- A dataset with exactly 3 rows matching 필러. -/
def demoDfSmall : List HospitalRow :=
  [⟨some "필러", "A의원 강남 4.8"⟩, ⟨some "보톡스", "B의원 서초 4.6"⟩,
   ⟨some "필러", "C의원 강남 4.5"⟩, ⟨some "필러주사", "D의원 신사 4.4"⟩]

/-- The known filename→handle mapping of uploaded PDFs. -/
def demoHandles : List (String × String) :=
  [("Injectable Fillers in Aesthetic Medicine.pdf", "files/abc123"),
   ("Cosmetic Dermatology.pdf", "files/def456")]

/-- A prompt template containing each placeholder token once. -/
def demoTemplate : String :=
  "상담 지침\n병원 목록:\n((HOSPITAL_LIST))\n사진:\n((SUBMITTED_PHOTOS))\n대화 기록:\n((CONVERSATION_HISTORY))\n끝."

/-- A history whose user turn contains a literal placeholder token. -/
def demoEchoHistory : List ChatTurn :=
  [⟨"user", "((HOSPITAL_LIST))"⟩]

/-- A raw model output wrapped in a JSON code fence, not valid JSON inside. -/
def badRaw : String := "```json\n이것은 JSON이 아닙니다\n```"

/-- The fence-stripped content of `badRaw`. -/
def badText : String := "이것은 JSON이 아닙니다"

/-! # Theorems -/

set_option maxRecDepth 1000000

/-- Lookup `dict.get` on a key absent from the mapping yields `none`. -/
theorem dictGet_eq_none {α : Type} (m : List (String × α)) (k : String)
    (h : ∀ p ∈ m, p.1 ≠ k) : dictGet m k = none := by
  induction m with
  | nil => rfl
  | cons p rest ih =>
    have hp : ¬ (p.1 == k) = true := by
      simpa using h p (List.mem_cons_self p rest)
    have hr := ih (fun q hq => h q (List.mem_cons_of_mem p hq))
    simp only [dictGet, hr, if_neg hp]

/-- Claim C1 (corrected): the category extraction propagates the raw
classifier category exactly when `is_detected` is true; no validation
against `PROCEDURE_CATEGORIES` takes place between the structured response
and its downstream use. -/
theorem categoryPropagation (r : ProcedureCategory) :
    (categoryOf r = none ↔ r.is_detected = false) ∧
    (∀ c : String, categoryOf r = some c → c = r.category) := by
  unfold categoryOf
  cases h : r.is_detected <;> simp

/-- Witness for `categoryPropagation` at concrete classifier outputs. -/
theorem categoryPropagation_witness :
    categoryOf ⟨false, "필러"⟩ = none ∧
    "복권" = ProcedureCategory.category ⟨true, "복권"⟩ :=
  ⟨(categoryPropagation ⟨false, "필러"⟩).1.mpr rfl,
   (categoryPropagation ⟨true, "복권"⟩).2 "복권" rfl⟩

/-- Claim C1 counterexample: a structured response with `is_detected = true`
and a category outside `PROCEDURE_CATEGORIES` is propagated downstream (the
hospital filter receives and uses it), not treated as "not detected". -/
theorem categoryOutsideSetPropagated :
    categoryOf ⟨true, "복권"⟩ = some "복권" ∧
    PROCEDURE_CATEGORIES.contains "복권" = false ∧
    load_and_filter_hospitals (some demoDf) (categoryOf ⟨true, "복권"⟩) =
      noMatchMsg "복권" ∧
    (load_and_filter_hospitals (some demoDf) (categoryOf ⟨true, "복권"⟩) ==
      cannotFilterMsg) = false := by
  refine ⟨rfl, by decide, by decide, by decide⟩

/-- Claim C2 (confirmed): with two transient failures then a success, the
retry loop returns the success after backoff waits of exactly 2 and 4
seconds (base 2, doubling); with three consecutive failures it surfaces the
last error after the same two waits and exactly 3 attempts; and the loop
never consults any attempt beyond the third. -/
theorem retryBackoffBehavior (call : Nat → ApiOutcome) (e1 e2 : ApiError)
    (t : String) :
    (e1.transient = true → e2.transient = true →
      call 0 = ApiOutcome.raised e1 → call 1 = ApiOutcome.raised e2 →
      call 2 = ApiOutcome.ok t →
      invokeWithRetry call = (Except.ok t, [2, 4], 3)) ∧
    (∀ e3 : ApiError, e1.transient = true → e2.transient = true →
      call 0 = ApiOutcome.raised e1 → call 1 = ApiOutcome.raised e2 →
      call 2 = ApiOutcome.raised e3 →
      invokeWithRetry call = (Except.error e3, [2, 4], 3)) ∧
    (∀ call2 : Nat → ApiOutcome, call 0 = call2 0 → call 1 = call2 1 →
      call 2 = call2 2 → invokeWithRetry call = invokeWithRetry call2) := by
  refine ⟨?_, ?_, ?_⟩
  · intro _ _ h0 h1 h2
    simp [invokeWithRetry, retryLoop, h0, h1, h2]
  · intro e3 _ _ h0 h1 h2
    simp [invokeWithRetry, retryLoop, h0, h1, h2]
  · intro call2 h0 h1 h2
    simp [invokeWithRetry, retryLoop, h0, h1, h2]

/-- Witness for `retryBackoffBehavior` at concrete outcome sequences. -/
theorem retryBackoffBehavior_witness :
    invokeWithRetry callFailTwice = (Except.ok "정상 응답", [2, 4], 3) ∧
    invokeWithRetry callFailThrice =
      (Except.error ⟨true, "Timeout"⟩, [2, 4], 3) :=
  ⟨(retryBackoffBehavior callFailTwice ⟨true, "RateLimited"⟩
      ⟨true, "RateLimited"⟩ "정상 응답").1 rfl rfl rfl rfl rfl,
   (retryBackoffBehavior callFailThrice ⟨true, "Timeout"⟩
      ⟨true, "Timeout"⟩ "정상 응답").2.1 ⟨true, "Timeout"⟩ rfl rfl rfl rfl rfl⟩

/-- Claim C8 counterexample: an attempt failing with a non-transient error
(invalid request) is retried like any other failure — the loop performs 3
attempts with backoff waits 2 and 4, instead of surfacing the error
immediately (which would be 1 attempt and no waits). -/
theorem nonTransientIsRetried :
    invokeWithRetry callInvalid =
      (Except.error ⟨false, "InvalidArgument"⟩, [2, 4], 3) ∧
    (invokeWithRetry callInvalid).2.1.isEmpty = false ∧
    ((invokeWithRetry callInvalid).2.2 == 1) = false := by
  refine ⟨rfl, by decide, by decide⟩

/-- Claim C8 (amended): the retry loop does not discriminate on the kind of
failure — any three consecutive failures, transient or not, produce 3
attempts, waits of 2 and 4 seconds, and surface the last error. -/
theorem allFailuresRetriedUniformly (call : Nat → ApiOutcome)
    (errs : Nat → ApiError) (h : ∀ n, n < 3 → call n = ApiOutcome.raised (errs n)) :
    invokeWithRetry call = (Except.error (errs 2), [2, 4], 3) := by
  have h0 := h 0 (by norm_num)
  have h1 := h 1 (by norm_num)
  have h2 := h 2 (by norm_num)
  simp [invokeWithRetry, retryLoop, h0, h1, h2]

/-- Witness for `allFailuresRetriedUniformly` at the non-transient call. -/
theorem allFailuresRetriedUniformly_witness :
    invokeWithRetry callInvalid =
      (Except.error ⟨false, "InvalidArgument"⟩, [2, 4], 3) :=
  allFailuresRetriedUniformly callInvalid (fun _ => ⟨false, "InvalidArgument"⟩)
    (fun _ _ => rfl)

/-- Claim C7 (confirmed): a `DocumentSelection` naming a filename absent
from the handle mapping yields `none` from the (non-raising) `dict.get`
lookup, and the generation request is built from the user query alone, with
no attached document. -/
theorem unknownFilenameDegrades (handles : List (String × String))
    (sel : PdfSelection) (q : String)
    (h : ∀ p ∈ handles, p.1 ≠ sel.selected_filename) :
    dictGet handles sel.selected_filename = none ∧
    buildRequestParts q (dictGet handles sel.selected_filename) =
      [ContentPart.text q] := by
  have hn := dictGet_eq_none handles sel.selected_filename h
  exact ⟨hn, by rw [hn]; rfl⟩

/-- Witness for `unknownFilenameDegrades` at a concrete unknown filename. -/
theorem unknownFilenameDegrades_witness :
    dictGet demoHandles "unknown.pdf" = none ∧
    buildRequestParts "필러 맞고 싶어요" (dictGet demoHandles "unknown.pdf") =
      [ContentPart.text "필러 맞고 싶어요"] :=
  unknownFilenameDegrades demoHandles ⟨"unknown.pdf"⟩ "필러 맞고 싶어요"
    (by decide)

/-- Claim C10 (confirmed): the status probe returns a value for every HTTP
outcome; a raised request, a non-200 status, and a 200 response whose body
fails JSON decoding all yield the `{"status": "error", "message": ...}`
dictionary, while a 200 response with a decodable body yields the server's
own payload. -/
theorem statusProbeTotal (a : HttpAttempt) :
    (∀ m, a = HttpAttempt.raised m →
      check_pdf_server_status a = errStatusJson m) ∧
    (∀ code body, a = HttpAttempt.responded code body → code ≠ 200 →
      check_pdf_server_status a = errStatusJson ("HTTP " ++ toString code)) ∧
    (∀ body payload, a = HttpAttempt.responded 200 body →
      body = Except.ok payload → check_pdf_server_status a = payload) ∧
    (∀ m, a = HttpAttempt.responded 200 (Except.error m) →
      check_pdf_server_status a = errStatusJson m) := by
  refine ⟨?_, ?_, ?_, ?_⟩
  · intro m h; subst h; rfl
  · intro code body h hne; subst h
    simp [check_pdf_server_status, hne]
  · intro body payload h hb; subst h; subst hb; rfl
  · intro m h; subst h; rfl

/-- Witness for `statusProbeTotal` at concrete HTTP outcomes. -/
theorem statusProbeTotal_witness :
    check_pdf_server_status (HttpAttempt.raised "Connection refused") =
      errStatusJson "Connection refused" ∧
    check_pdf_server_status
        (HttpAttempt.responded 404 (Except.error "no body")) =
      errStatusJson "HTTP 404" ∧
    check_pdf_server_status
        (HttpAttempt.responded 200
          (Except.ok (Json.obj [("status", Json.str "running")]))) =
      Json.obj [("status", Json.str "running")] ∧
    check_pdf_server_status
        (HttpAttempt.responded 200 (Except.error "invalid json")) =
      errStatusJson "invalid json" :=
  ⟨(statusProbeTotal _).1 "Connection refused" rfl,
   (statusProbeTotal _).2.1 404 (Except.error "no body") rfl (by decide),
   (statusProbeTotal _).2.2.1 _ _ rfl rfl,
   (statusProbeTotal _).2.2.2 "invalid json" rfl⟩

/-- Claim C3 (confirmed): the auxiliary hospital filter returns the fixed
"cannot filter" message on an absent (or empty) category independently of
the dataset; on a missing dataset file it returns the fixed "dataset
unavailable" message; and on a present category with at least one matching
row it renders exactly the first `min 5 N` matching rows — all `N` of them
when `N ≤ 5`, exactly 5 when `N > 5`. -/
theorem hospitalFilterBehavior (csv csv2 : Option (List HospitalRow))
    (category : Option String) (df : List HospitalRow) (cat : String) :
    (pyTruthyStrOpt category = false →
      load_and_filter_hospitals csv category = cannotFilterMsg ∧
      load_and_filter_hospitals csv category =
        load_and_filter_hospitals csv2 category) ∧
    (¬ cat = "" →
      load_and_filter_hospitals none (some cat) = fileMissingMsg) ∧
    (¬ cat = "" → df.filter (rowMatches cat) ≠ [] →
      load_and_filter_hospitals (some df) (some cat) =
        renderTable ((df.filter (rowMatches cat)).take 5) ∧
      ((df.filter (rowMatches cat)).take 5).length =
        min 5 (df.filter (rowMatches cat)).length ∧
      ((df.filter (rowMatches cat)).length ≤ 5 →
        ((df.filter (rowMatches cat)).take 5).length =
          (df.filter (rowMatches cat)).length) ∧
      (5 < (df.filter (rowMatches cat)).length →
        ((df.filter (rowMatches cat)).take 5).length = 5)) := by
  refine ⟨?_, ?_, ?_⟩
  · intro h
    constructor <;> simp [load_and_filter_hospitals, h]
  · intro h
    have hb : (cat == "") = false := by simpa using h
    simp [load_and_filter_hospitals, pyTruthyStrOpt, hb]
  · intro h hne
    have hb : (cat == "") = false := by simpa using h
    have hempty : (df.filter (rowMatches cat)).isEmpty = false := by
      simpa [List.isEmpty_iff] using hne
    refine ⟨?_, ?_, ?_, ?_⟩
    · simp [load_and_filter_hospitals, pyTruthyStrOpt, hb, hempty]
    · simp [List.length_take]
    · intro hle
      simp [List.length_take, Nat.min_eq_right hle]
    · intro hlt
      simp [List.length_take, Nat.min_eq_left (Nat.le_of_lt hlt)]

/-- Witness for `hospitalFilterBehavior`: absent category, missing file,
a 필러 dataset with 7 matches (5 rendered), and one with 3 matches
(3 rendered). -/
theorem hospitalFilterBehavior_witness :
    load_and_filter_hospitals (some demoDf) none = cannotFilterMsg ∧
    load_and_filter_hospitals none (some "필러") = fileMissingMsg ∧
    load_and_filter_hospitals (some demoDf) (some "필러") =
      renderTable ((demoDf.filter (rowMatches "필러")).take 5) ∧
    ((demoDf.filter (rowMatches "필러")).take 5).length = 5 ∧
    ((demoDfSmall.filter (rowMatches "필러")).take 5).length =
      (demoDfSmall.filter (rowMatches "필러")).length :=
  ⟨((hospitalFilterBehavior (some demoDf) none none demoDf "필러").1 rfl).1,
   (hospitalFilterBehavior none none none demoDf "필러").2.1 (by decide),
   ((hospitalFilterBehavior (some demoDf) none none demoDf "필러").2.2
      (by decide) (by decide)).1,
   ((hospitalFilterBehavior (some demoDf) none none demoDf "필러").2.2
      (by decide) (by decide)).2.2.2 (by decide),
   ((hospitalFilterBehavior none none none demoDfSmall "필러").2.2
      (by decide) (by decide)).2.2.1 (by decide)⟩

/-- Containment in a later suffix implies containment. -/
theorem infixHit_drop (p t : List Char) :
    ∀ k, infixHit p (List.drop k t) = true → infixHit p t = true := by
  induction t with
  | nil => intro k h; simpa using h
  | cons c t ih =>
    intro k h
    cases k with
    | zero => simpa using h
    | succ k =>
      have ht := ih k (by simpa using h)
      simp [infixHit, ht]

/-- Prepending characters that do not occur in the pattern cannot create an
occurrence of the pattern. -/
theorem infixHit_skip (p : List Char) (hp : p ≠ []) :
    ∀ (a b : List Char), (∀ c ∈ a, ¬ c ∈ p) →
      infixHit p (a ++ b) = infixHit p b := by
  intro a
  induction a with
  | nil => intro b _; rfl
  | cons c a ih =>
    intro b hd
    cases p with
    | nil => exact absurd rfl hp
    | cons p0 p1 =>
      have hcp : ¬ c ∈ p0 :: p1 := hd c (List.mem_cons_self c a)
      have hb : (p0 == c) = false := by
        refine beq_eq_false_iff_ne.mpr (fun he => hcp ?_)
        exact List.mem_cons.mpr (Or.inl he.symm)
      have hrest := ih b (fun ch hm => hd ch (List.mem_cons_of_mem c hm))
      simp [List.cons_append, infixHit, okPre, hb, hrest]

/-- Transport of a prefix through the replacement output: a non-empty
pattern sharing no character with `new` that is a prefix of the replacement
output is already a prefix of the input. -/
theorem okPre_transport (old new : List Char) (hn : new ≠ []) :
    ∀ (fuel : Nat) (s q : List Char), s.length ≤ fuel → q ≠ [] →
      (∀ c ∈ new, ¬ c ∈ q) → okPre q (pyRepAux fuel s old new) = true →
      okPre q s = true := by
  intro fuel
  induction fuel with
  | zero =>
    intro s q hlen hq hd h
    have hs : s = [] := List.eq_nil_of_length_eq_zero (Nat.le_zero.mp hlen)
    subst hs
    cases q with
    | nil => exact absurd rfl hq
    | cons q0 q1 => simp [pyRepAux, okPre] at h
  | succ f ih =>
    intro s q hlen hq hd h
    cases s with
    | nil =>
      cases q with
      | nil => exact absurd rfl hq
      | cons q0 q1 => simp [pyRepAux, okPre] at h
    | cons c rest =>
      have hr : rest.length ≤ f := by
        simp only [List.length_cons] at hlen; omega
      by_cases hcond : (!old.isEmpty && okPre old (c :: rest)) = true
      · rw [show pyRepAux (f + 1) (c :: rest) old new =
            new ++ pyRepAux f (List.drop (old.length - 1) rest) old new from by
          simp [pyRepAux, hcond]] at h
        cases q with
        | nil => exact absurd rfl hq
        | cons q0 q1 =>
          cases new with
          | nil => exact absurd rfl hn
          | cons n0 n1 =>
            simp only [List.cons_append, okPre, Bool.and_eq_true] at h
            have hq0 : q0 = n0 := eq_of_beq h.1
            exact absurd (List.mem_cons.mpr (Or.inl hq0.symm))
              (hd n0 (List.mem_cons_self n0 n1))
      · rw [show pyRepAux (f + 1) (c :: rest) old new =
            c :: pyRepAux f rest old new from by
          have hcf : (!old.isEmpty && okPre old (c :: rest)) = false := by
            simpa using hcond
          simp [pyRepAux, hcf]] at h
        cases q with
        | nil => exact absurd rfl hq
        | cons q0 q1 =>
          simp only [okPre, Bool.and_eq_true] at h
          obtain ⟨hq0, hrest⟩ := h
          cases q1 with
          | nil => simp [okPre, hq0]
          | cons q2 q3 =>
            have hq1 := ih rest (q2 :: q3) hr (by simp)
              (fun ch hm hin => hd ch hm (List.mem_cons_of_mem q0 hin)) hrest
            simp [okPre, hq0, hq1]

/-- Replacement preserves the absence of a pattern that shares no character
with the inserted text. -/
theorem infixHit_preserved (old new p : List Char) (hp : p ≠ [])
    (hn : new ≠ []) (hd : ∀ c ∈ new, ¬ c ∈ p) :
    ∀ (fuel : Nat) (s : List Char), s.length ≤ fuel →
      infixHit p s = false → infixHit p (pyRepAux fuel s old new) = false := by
  intro fuel
  induction fuel with
  | zero =>
    intro s hlen hs
    have : s = [] := List.eq_nil_of_length_eq_zero (Nat.le_zero.mp hlen)
    subst this
    cases p with
    | nil => exact absurd rfl hp
    | cons p0 p1 => rfl
  | succ f ih =>
    intro s hlen hs
    cases s with
    | nil =>
      cases p with
      | nil => exact absurd rfl hp
      | cons p0 p1 => rfl
    | cons c rest =>
      have hr : rest.length ≤ f := by
        simp only [List.length_cons] at hlen; omega
      have hsplit : okPre p (c :: rest) = false ∧ infixHit p rest = false := by
        constructor
        · cases hok : okPre p (c :: rest) with
          | false => rfl
          | true => rw [infixHit, hok, Bool.true_or] at hs; exact hs
        · cases hih : infixHit p rest with
          | false => rfl
          | true => rw [infixHit, hih, Bool.or_true] at hs; exact hs
      by_cases hcond : (!old.isEmpty && okPre old (c :: rest)) = true
      · rw [show pyRepAux (f + 1) (c :: rest) old new =
            new ++ pyRepAux f (List.drop (old.length - 1) rest) old new from by
          simp [pyRepAux, hcond]]
        rw [infixHit_skip p hp new _ hd]
        apply ih
        · exact le_trans (by simp [List.length_drop]) hr
        · cases hdk : infixHit p (List.drop (old.length - 1) rest) with
          | false => rfl
          | true => exact absurd (infixHit_drop p rest _ hdk) (by simp [hsplit.2])
      · rw [show pyRepAux (f + 1) (c :: rest) old new =
            c :: pyRepAux f rest old new from by
          have hcf : (!old.isEmpty && okPre old (c :: rest)) = false := by
            simpa using hcond
          simp [pyRepAux, hcf]]
        have htail := ih rest hr hsplit.2
        rw [infixHit, htail, Bool.or_false]
        cases p with
        | nil => exact absurd rfl hp
        | cons p0 p1 =>
          cases hbc : (p0 == c) with
          | false => simp [okPre, hbc]
          | true =>
            cases p1 with
            | nil =>
              exact absurd (by simp [okPre, hbc] : okPre [p0] (c :: rest) = true)
                (by simp [hsplit.1])
            | cons p2 p3 =>
              cases hq : okPre (p2 :: p3) (pyRepAux f rest old new) with
              | false => simp [okPre, hq]
              | true =>
                have htr := okPre_transport old new hn f rest (p2 :: p3) hr
                  (by simp)
                  (fun ch hm hin => hd ch hm (List.mem_cons_of_mem p0 hin)) hq
                exact absurd
                  (by simp [okPre, hbc, htr] :
                    okPre (p0 :: p2 :: p3) (c :: rest) = true)
                  (by simp [hsplit.1])

/-- Replacement eliminates the replaced pattern itself when the inserted
text shares no character with it. -/
theorem infixHit_self_gone (old new : List Char) (ho : old ≠ [])
    (hn : new ≠ []) (hd : ∀ c ∈ new, ¬ c ∈ old) :
    ∀ (fuel : Nat) (s : List Char), s.length ≤ fuel →
      infixHit old (pyRepAux fuel s old new) = false := by
  intro fuel
  induction fuel with
  | zero =>
    intro s hlen
    have : s = [] := List.eq_nil_of_length_eq_zero (Nat.le_zero.mp hlen)
    subst this
    cases old with
    | nil => exact absurd rfl ho
    | cons o0 o1 => rfl
  | succ f ih =>
    intro s hlen
    cases s with
    | nil =>
      cases old with
      | nil => exact absurd rfl ho
      | cons o0 o1 => rfl
    | cons c rest =>
      have hr : rest.length ≤ f := by
        simp only [List.length_cons] at hlen; omega
      by_cases hcond : (!old.isEmpty && okPre old (c :: rest)) = true
      · rw [show pyRepAux (f + 1) (c :: rest) old new =
            new ++ pyRepAux f (List.drop (old.length - 1) rest) old new from by
          simp [pyRepAux, hcond]]
        rw [infixHit_skip old ho new _ hd]
        exact ih _ (le_trans
          (by simp [List.length_drop]) hr)
      · have hne : (!old.isEmpty) = true := by
          cases old with
          | nil => exact absurd rfl ho
          | cons o0 o1 => rfl
        have hok : okPre old (c :: rest) = false := by
          cases hoc : okPre old (c :: rest) with
          | false => rfl
          | true => exact absurd (by rw [hne, hoc]; rfl) hcond
        rw [show pyRepAux (f + 1) (c :: rest) old new =
            c :: pyRepAux f rest old new from by
          have hcf : (!old.isEmpty && okPre old (c :: rest)) = false := by
            simpa using hcond
          simp [pyRepAux, hcf]]
        have htail := ih rest hr
        rw [infixHit, htail, Bool.or_false]
        cases old with
        | nil => exact absurd rfl ho
        | cons o0 o1 =>
          cases hbc : (o0 == c) with
          | false => simp [okPre, hbc]
          | true =>
            cases o1 with
            | nil =>
              exact absurd (by simp [okPre, hbc] : okPre [o0] (c :: rest) = true)
                (by simp [hok])
            | cons o2 o3 =>
              cases hq : okPre (o2 :: o3) (pyRepAux f rest (o0 :: o2 :: o3) new) with
              | false => simp [okPre, hq]
              | true =>
                have htr := okPre_transport (o0 :: o2 :: o3) new hn f rest
                  (o2 :: o3) hr (by simp)
                  (fun ch hm hin => hd ch hm (List.mem_cons_of_mem o0 hin)) hq
                exact absurd
                  (by simp [okPre, hbc, htr] :
                    okPre (o0 :: o2 :: o3) (c :: rest) = true)
                  (by simp [hok])

/-- Nonempty strings have nonempty character lists. -/
theorem strNe_data {s : String} (h : s ≠ "") : s.data ≠ [] := by
  intro hd
  apply h
  cases s with
  | mk d => cases hd; rfl

/-- String-level form of `infixHit_self_gone`: after
`s.replace(old, new)`, `old` no longer occurs, provided `new` shares no
character with `old`. -/
theorem pyReplace_eliminates (s old new : String) (ho : old.data ≠ [])
    (hn : new.data ≠ []) (hd : charsDisjoint new old) :
    strContainsS (pyReplace s old new) old = false :=
  infixHit_self_gone old.data new.data ho hn hd s.data.length s.data (le_refl _)

/-- String-level form of `infixHit_preserved`: `s.replace(old, new)` keeps a
pattern absent when the pattern was absent from `s` and shares no character
with `new`. -/
theorem pyReplace_keeps_absent (s old new p : String) (hp : p.data ≠ [])
    (hn : new.data ≠ []) (hd : charsDisjoint new p)
    (habs : strContainsS s p = false) :
    strContainsS (pyReplace s old new) p = false :=
  infixHit_preserved old.data new.data p.data hp hn hd s.data.length s.data
    (le_refl _) habs

/-- Appending one element to a joined list appends one separated entry. -/
theorem joinSep_append_single (sep : String) (xs : List String) (y : String) :
    joinSep sep (xs ++ [y]) =
      (if xs.isEmpty then y else joinSep sep xs ++ sep ++ y) := by
  induction xs with
  | nil => rfl
  | cons x xs ih =>
    cases xs with
    | nil => simp [joinSep]
    | cons x2 xs2 =>
      have h2 : joinSep sep ((x :: x2 :: xs2) ++ [y]) =
          x ++ sep ++ joinSep sep ((x2 :: xs2) ++ [y]) := rfl
      rw [h2, ih]
      simp [joinSep, String.append_assoc]

/-- Claim C9 counterexample: the sequential `str.replace` chain does not
guarantee a placeholder-free prompt for every input combination — a
conversation history whose user turn contains the literal token
`((HOSPITAL_LIST))` reintroduces it into the assembled prompt (the hospital
replacement has already run). -/
theorem placeholderReintroduced :
    strContainsS
      (assembleFinalPrompt demoTemplate "병원 정보 없음"
        (serializeHistory demoEchoHistory))
      tokenHospital = true := by
  decide

/-- Claim C9 (amended): for every template, all three placeholder tokens are
absent from the assembled prompt provided the substituted hospital text and
serialized history are non-empty and share no character with the respective
tokens (the fixed photos sentinel satisfies this by computation); and the
history serialization appends each new turn after the previous ones,
preserving turn order. -/
theorem placeholderSubstitutionAmended :
    (∀ template hospital histSer : String,
      hospital ≠ "" → charsDisjoint hospital tokenHospital →
      histSer ≠ "" → charsDisjoint histSer tokenHospital →
      charsDisjoint histSer tokenPhotos →
      charsDisjoint histSer tokenHistory →
      strContainsS (assembleFinalPrompt template hospital histSer)
          tokenHospital = false ∧
      strContainsS (assembleFinalPrompt template hospital histSer)
          tokenPhotos = false ∧
      strContainsS (assembleFinalPrompt template hospital histSer)
          tokenHistory = false) ∧
    (∀ (h : List ChatTurn) (t : ChatTurn),
      serializeHistory (h ++ [t]) =
        "[" ++ (if h.isEmpty then turnRepr t
          else joinSep ", " (h.map turnRepr) ++ ", " ++ turnRepr t) ++ "]") := by
  constructor
  · intro template hospital histSer hne1 hd1 hne2 hd2 hd3 hd4
    unfold assembleFinalPrompt
    have h1 : strContainsS (pyReplace template tokenHospital hospital)
        tokenHospital = false :=
      pyReplace_eliminates template tokenHospital hospital (by decide)
        (strNe_data hne1) hd1
    have h2 : strContainsS
        (pyReplace (pyReplace template tokenHospital hospital) tokenPhotos
          noPhotosSentinel) tokenHospital = false :=
      pyReplace_keeps_absent _ tokenPhotos noPhotosSentinel tokenHospital
        (by decide) (by decide) (by decide) h1
    have g2 : strContainsS
        (pyReplace (pyReplace template tokenHospital hospital) tokenPhotos
          noPhotosSentinel) tokenPhotos = false :=
      pyReplace_eliminates _ tokenPhotos noPhotosSentinel (by decide)
        (by decide) (by decide)
    refine ⟨?_, ?_, ?_⟩
    · exact pyReplace_keeps_absent _ tokenHistory histSer tokenHospital
        (by decide) (strNe_data hne2) hd2 h2
    · exact pyReplace_keeps_absent _ tokenHistory histSer tokenPhotos
        (by decide) (strNe_data hne2) hd3 g2
    · exact pyReplace_eliminates _ tokenHistory histSer (by decide)
        (strNe_data hne2) hd4
  · intro h t
    cases h with
    | nil => rfl
    | cons t0 rest =>
      have hmap : List.map turnRepr ((t0 :: rest) ++ [t]) =
          (turnRepr t0 :: List.map turnRepr rest) ++ [turnRepr t] := by
        simp
      rw [serializeHistory, hmap, joinSep_append_single]
      simp

/-- Witness for `placeholderSubstitutionAmended` at a concrete template,
hospital text, and serialized history. -/
theorem placeholderSubstitutionAmended_witness :
    strContainsS (assembleFinalPrompt demoTemplate "병원 없음" "[필러 문의]")
        tokenHospital = false ∧
    strContainsS (assembleFinalPrompt demoTemplate "병원 없음" "[필러 문의]")
        tokenPhotos = false ∧
    strContainsS (assembleFinalPrompt demoTemplate "병원 없음" "[필러 문의]")
        tokenHistory = false ∧
    serializeHistory ([⟨"user", "필러 문의"⟩] ++ [⟨"model", "답변"⟩]) =
      "[" ++ (if ([(⟨"user", "필러 문의"⟩ : ChatTurn)]).isEmpty
          then turnRepr ⟨"model", "답변"⟩
          else joinSep ", " ([(⟨"user", "필러 문의"⟩ : ChatTurn)].map turnRepr) ++
            ", " ++ turnRepr ⟨"model", "답변"⟩) ++ "]" := by
  have hmain := placeholderSubstitutionAmended.1 demoTemplate "병원 없음"
    "[필러 문의]" (by decide) (by decide) (by decide) (by decide) (by decide)
    (by decide)
  exact ⟨hmain.1, hmain.2.1, hmain.2.2,
    placeholderSubstitutionAmended.2 [⟨"user", "필러 문의"⟩] ⟨"model", "답변"⟩⟩

/-- Claim C5 counterexample: the simple JSON chat formatter assigns the tier
at the thresholds 9/7, not 8/6 — a confidence score of 8 renders under the
middle label 권장, not under the formatter's high-confidence label
매우 확신 (which a score of 9 receives). -/
theorem simpleTierAtEight :
    simpleConfTier 8 = ("🟡", "권장") ∧
    simpleConfTier 9 = ("🟢", "매우 확신") ∧
    ((simpleConfTier 8).2 == (simpleConfTier 9).2) = false ∧
    simpleConfTierOf (Json.num 8) = Except.ok ("🟡", "권장") := by
  refine ⟨by decide, by decide, by decide, by rfl⟩

/-- Claim C5 (amended): the advanced formatters label options by the fixed
thresholds score ≥ 8 high / 6 ≤ score < 8 medium / score < 6 low, while the
simple JSON chat formatter uses score ≥ 9 / 7 ≤ score < 9 / score < 7; a
confidence score of 9 renders under the high-confidence label in both. -/
theorem confidenceTierThresholds (q : ℚ) :
    (advConfEmoji q = "🟢" ↔ 8 ≤ q) ∧
    (advConfEmoji q = "🟡" ↔ 6 ≤ q ∧ q < 8) ∧
    (advConfEmoji q = "🟠" ↔ q < 6) ∧
    ((simpleConfTier q).2 = "매우 확신" ↔ 9 ≤ q) ∧
    ((simpleConfTier q).2 = "권장" ↔ 7 ≤ q ∧ q < 9) ∧
    ((simpleConfTier q).2 = "고려 가능" ↔ q < 7) ∧
    advConfEmojiOf (Json.num 9) = Except.ok "🟢" ∧
    simpleConfTierOf (Json.num 9) = Except.ok ("🟢", "매우 확신") := by
  refine ⟨?_, ?_, ?_, ?_, ?_, ?_, by rfl, by rfl⟩
  · unfold advConfEmoji
    split_ifs with h1 h2
    · exact iff_of_true rfl h1
    · exact iff_of_false (by decide) h1
    · exact iff_of_false (by decide) h1
  · unfold advConfEmoji
    split_ifs with h1 h2
    · exact iff_of_false (by decide) (fun hc => absurd hc.2 (not_lt.mpr h1))
    · exact iff_of_true rfl ⟨h2, not_le.mp h1⟩
    · exact iff_of_false (by decide) (fun hc => h2 hc.1)
  · unfold advConfEmoji
    split_ifs with h1 h2
    · exact iff_of_false (by decide) (by intro hlt; linarith)
    · exact iff_of_false (by decide) (by intro hlt; linarith)
    · exact iff_of_true rfl (not_le.mp h2)
  · unfold simpleConfTier
    split_ifs with h1 h2
    · exact iff_of_true rfl h1
    · exact iff_of_false (by decide) h1
    · exact iff_of_false (by decide) h1
  · unfold simpleConfTier
    split_ifs with h1 h2
    · exact iff_of_false (by decide) (fun hc => absurd hc.2 (not_lt.mpr h1))
    · exact iff_of_true rfl ⟨h2, not_le.mp h1⟩
    · exact iff_of_false (by decide) (fun hc => h2 hc.1)
  · unfold simpleConfTier
    split_ifs with h1 h2
    · exact iff_of_false (by decide) (by intro hlt; linarith)
    · exact iff_of_false (by decide) (by intro hlt; linarith)
    · exact iff_of_true rfl (not_le.mp h2)

/-- Claim C6 (confirmed): `format_consultation_response` is total over the
try/except — every raised rendering or parsing error is converted into the
catch-all message, and every successful rendering is returned as-is, so a
string is returned for well-formed dicts, malformed dicts, and arbitrary
strings alike. -/
theorem formatterTotal (loads : String → Except String Json)
    (input : Sum String Json) :
    (∀ e, advBody loads input = Except.error e →
      format_consultation_response loads input =
        "❌ 응답 생성 중 오류가 발생했습니다: " ++ e) ∧
    (∀ s, advBody loads input = Except.ok s →
      format_consultation_response loads input = s) := by
  unfold format_consultation_response
  constructor
  · intro e he; rw [he]
  · intro s hs; rw [hs]

/-- Witness for `formatterTotal`: a malformed string input and a non-dict
input both produce the catch-all message; a well-formed consultation dict
renders successfully. -/
theorem formatterTotal_witness :
    format_consultation_response loadsFail (Sum.inl "이상한 응답") =
      "❌ 응답 생성 중 오류가 발생했습니다: Expecting value" ∧
    format_consultation_response loadsFail (Sum.inr (Json.num 5)) =
      "❌ 응답 생성 중 오류가 발생했습니다: AttributeError: object has no attribute get" ∧
    format_consultation_response loadsFail (Sum.inr wfDemo) =
      (advBody loadsFail (Sum.inr wfDemo)).toOption.getD "" :=
  ⟨(formatterTotal loadsFail (Sum.inl "이상한 응답")).1 _ rfl,
   (formatterTotal loadsFail (Sum.inr (Json.num 5))).1 _ rfl,
   (formatterTotal loadsFail (Sum.inr wfDemo)).2 _ rfl⟩

/-- Claim C4 (code bug): fence stripping itself works — `cleanFences`
removes the enclosing ```json fence — and the string-input fallback of
`format_consultation_json_to_chat` does embed the raw text verbatim; but the
pipeline of `process_full_consultation` wraps a parse failure into a
`raw_response` dict whose key the formatter never reads, so the final
formatted answer for an unparsable model output omits the raw text
entirely (while still raising no exception). -/
theorem parseFallbackDropsRawText :
    cleanFences badRaw = badText ∧
    (pipelineFormatStage loadsFail badRaw "guide.pdf" none).map
      (fun s => strContainsS s badText) = Except.ok false ∧
    (format_consultation_json_to_chat loadsFail (Sum.inl badText)
        "guide.pdf" none).map
      (fun s => strContainsS s badText) = Except.ok true := by
  refine ⟨rfl, rfl, rfl⟩

end HospitalAgent
